import Mathlib

/-!
Shallow embedding of the asmjit CPU-feature / CPU-identity core:
`src/asmjit/core/cpuinfo.h` (class `CpuFeatures`, its nested `Data`
struct, class `CpuInfo`) and `src/asmjit/arm/a32globals.h`
(`a32::Inst::Id` enumeration with `isDefinedId`).

Machine words are modelled as `Nat` bounded by `2 ^ kBitWordSizeInBits`
(the C++ `BitWord` is a fixed-width unsigned integer, so the bound is an
invariant of the type, not an assumption); every bitwise operation of
the C++ source is translated literally (`|||`, `&&&`, `^^^`, `<<<`,
`>>>`), with the one-word complement `~x` of a `BitWord` rendered as
`(2 ^ kBitWordSizeInBits - 1) ^^^ x`, which is the exact value a
fixed-width word complement produces.

Definitions come first, theorems afterwards.
-/

namespace AsmJit

/-- Modelled from the spec: `Support::BitWord` comes from `support.h`,
which is outside the provided sources; the spec fixes only that the word
width is a storage-layout choice such as 32 or 64 bits.  We model a
32-bit `BitWord`. -/
def kBitWordSizeInBits : Nat := 32

/-- `CpuFeatures::kMaxFeatures = 256` (cpuinfo.h line 35). -/
def kMaxFeatures : Nat := 256

/-- `CpuFeatures::kNumBitWords = kMaxFeatures / Support::kBitWordSizeInBits`
(cpuinfo.h line 36). -/
def kNumBitWords : Nat := kMaxFeatures / kBitWordSizeInBits

/-- A feature identifier: the C++ code asserts `uint32_t(featureId) < kMaxFeatures`
in every accessor/mutator, so ids live in `Fin kMaxFeatures`. -/
abbrev FeatureId := Fin kMaxFeatures

namespace CpuFeatures

/-- `CpuFeatures::Data`: `Support::Array<BitWord, kNumBitWords> _bits`
(cpuinfo.h line 51), modelled as a function from word index to word.
Each word is a fixed-width `BitWord`, hence bounded by
`2 ^ kBitWordSizeInBits`. -/
structure Data where
  bits : Fin kNumBitWords → Nat
  bits_lt : ∀ w, bits w < 2 ^ kBitWordSizeInBits

/-- `uint32_t idx = uint32_t(featureId) / Support::kBitWordSizeInBits`
(used by `has`/`add`/`addIf`/`remove`). -/
def wordIndex (f : FeatureId) : Fin kNumBitWords :=
  ⟨f.val / kBitWordSizeInBits, Nat.div_lt_div_of_lt_of_dvd (by decide) f.isLt⟩

/-- `uint32_t bit = uint32_t(featureId) % Support::kBitWordSizeInBits`. -/
def bitIndex (f : FeatureId) : Nat := f.val % kBitWordSizeInBits

/-- `Data::reset(): _bits.fill(0)`; also the zero-initialized state of a
freshly constructed `CpuFeatures`. -/
def Data.reset : Data := ⟨fun _ => 0, fun _ => Nat.two_pow_pos _⟩

/-- `Data::has(featureId)` (cpuinfo.h lines 82-89):
`return bool((_bits[idx] >> bit) & 0x1)`. -/
def Data.has (d : Data) (f : FeatureId) : Bool :=
  ((d.bits (wordIndex f) >>> bitIndex f) &&& 1) != 0

/-- `Data::add(featureId)` (cpuinfo.h lines 118-125):
`_bits[idx] |= BitWord(1) << bit`. -/
def Data.add (d : Data) (f : FeatureId) : Data :=
  ⟨Function.update d.bits (wordIndex f)
    (d.bits (wordIndex f) ||| (1 <<< bitIndex f)),
   by
    intro w
    rw [Function.update_apply]
    split
    · refine Nat.or_lt_two_pow (d.bits_lt _) ?_
      rw [Nat.shiftLeft_eq, Nat.one_mul]
      exact Nat.pow_lt_pow_right (by decide) (Nat.mod_lt _ (by decide))
    · exact d.bits_lt w⟩

/-- `Data::addIf(condition, featureId)` (cpuinfo.h lines 134-141):
`_bits[idx] |= BitWord(condition) << bit`. -/
def Data.addIf (d : Data) (condition : Bool) (f : FeatureId) : Data :=
  ⟨Function.update d.bits (wordIndex f)
    (d.bits (wordIndex f) ||| ((if condition then 1 else 0) <<< bitIndex f)),
   by
    intro w
    rw [Function.update_apply]
    split
    · refine Nat.or_lt_two_pow (d.bits_lt _) ?_
      cases condition
      · rw [if_neg Bool.false_ne_true, Nat.zero_shiftLeft]
        exact Nat.two_pow_pos _
      · rw [if_pos rfl, Nat.shiftLeft_eq, Nat.one_mul]
        exact Nat.pow_lt_pow_right (by decide) (Nat.mod_lt _ (by decide))
    · exact d.bits_lt w⟩

/-- `Data::remove(featureId)` (cpuinfo.h lines 151-158):
`_bits[idx] &= ~(BitWord(1) << bit)`; the fixed-width complement of a
32-bit word `x` is `(2^32 - 1) ^^^ x`. -/
def Data.remove (d : Data) (f : FeatureId) : Data :=
  ⟨Function.update d.bits (wordIndex f)
    (d.bits (wordIndex f) &&&
      ((2 ^ kBitWordSizeInBits - 1) ^^^ (1 <<< bitIndex f))),
   by
    intro w
    rw [Function.update_apply]
    split
    · exact Nat.lt_of_le_of_lt Nat.and_le_left (d.bits_lt _)
    · exact d.bits_lt w⟩

/-- `Data::hasAll(other)` (cpuinfo.h lines 102-107):
`result = 1; for (i = 0; i < kNumBitWords; i++)
 result &= uint32_t((_bits[i] & other._bits[i]) == other._bits[i]);
 return bool(result)`. -/
def Data.hasAll (d other : Data) : Bool :=
  (List.finRange kNumBitWords).foldl
    (fun result i => result && ((d.bits i &&& other.bits i) == other.bits i))
    true

/-- `Data::empty()` (cpuinfo.h line 67):
`return _bits.aggregate<Support::Or>(0) == 0` — the bitwise OR of all
words, starting from 0, compared with 0. -/
def Data.empty (d : Data) : Bool :=
  ((List.finRange kNumBitWords).foldl (fun acc i => acc ||| d.bits i) 0) == 0

/-- `Data::eq(other)` (cpuinfo.h line 167): element-wise equality of the
`_bits` arrays. -/
def Data.eq (d other : Data) : Bool :=
  (List.finRange kNumBitWords).all (fun i => d.bits i == other.bits i)

/-- The variadic `add(featureId, otherFeatureIds...)` (cpuinfo.h lines
128-131) recursing left to right over the argument pack: a fold of the
single-id `add` over a list of ids. -/
def Data.addList (d : Data) (ids : List FeatureId) : Data :=
  ids.foldl Data.add d

/-- The variadic `addIf(condition, featureId, otherFeatureIds...)`
(cpuinfo.h lines 144-147): a fold of the single-id `addIf` over a list of
ids, all guarded by the same condition. -/
def Data.addIfList (d : Data) (condition : Bool) (ids : List FeatureId) : Data :=
  ids.foldl (fun s f => s.addIf condition f) d

/-- The variadic `remove(featureId, otherFeatureIds...)` (cpuinfo.h lines
161-164): a fold of the single-id `remove` over a list of ids. -/
def Data.removeList (d : Data) (ids : List FeatureId) : Data :=
  ids.foldl Data.remove d

/-- The variadic `hasAny(featureId, otherFeatureIds...)` (cpuinfo.h lines
92-99): the base case is `has(featureId)`, the recursive case is
`bool(unsigned(has(featureId)) | unsigned(hasAny(rest...)))`.  The pack
is non-empty, so the embedding takes a head id and a tail list. -/
def Data.hasAnyList (d : Data) (f : FeatureId) : List FeatureId → Bool
  | [] => d.has f
  | g :: rest => d.has f || d.hasAnyList g rest

/-- One public mutation of a feature set: the three mutators `add`,
`addIf` and `remove` of `CpuFeatures::Data`. -/
inductive MutOp where
  | add : FeatureId → MutOp
  | addIf : Bool → FeatureId → MutOp
  | remove : FeatureId → MutOp

/-- Apply one mutation to a feature set. -/
def MutOp.apply (d : Data) : MutOp → Data
  | .add f => d.add f
  | .addIf c f => d.addIf c f
  | .remove f => d.remove f

/-- The feature id named by a mutation. -/
def MutOp.fid : MutOp → FeatureId
  | .add f => f
  | .addIf _ f => f
  | .remove f => f

/-- Apply a sequence of mutations, left to right. -/
def Data.applyOps (d : Data) (ops : List MutOp) : Data :=
  ops.foldl MutOp.apply d

end CpuFeatures

end AsmJit

namespace AsmJit

namespace a32

namespace Inst

-- `a32::Inst::Id` (a32globals.h lines 29-482): a dense enumeration
-- starting at `kIdNone = 0`; each identifier below is bound to the value
-- the C++ enum gives it, in source order, ending with the count sentinel.
def kIdNone : Nat := 0
def kIdAdc : Nat := 1
def kIdAdcs : Nat := 2
def kIdAdd : Nat := 3
def kIdAdds : Nat := 4
def kIdAdr : Nat := 5
def kIdAesd : Nat := 6
def kIdAese : Nat := 7
def kIdAesimc : Nat := 8
def kIdAesmc : Nat := 9
def kIdAnd : Nat := 10
def kIdAnds : Nat := 11
def kIdAsr : Nat := 12
def kIdAsrs : Nat := 13
def kIdB : Nat := 14
def kIdBfc : Nat := 15
def kIdBfi : Nat := 16
def kIdBic : Nat := 17
def kIdBics : Nat := 18
def kIdBkpt : Nat := 19
def kIdBl : Nat := 20
def kIdBlx : Nat := 21
def kIdBx : Nat := 22
def kIdBxj : Nat := 23
def kIdClrex : Nat := 24
def kIdClz : Nat := 25
def kIdCmn : Nat := 26
def kIdCmp : Nat := 27
def kIdCps : Nat := 28
def kIdCpsid : Nat := 29
def kIdCpsie : Nat := 30
def kIdCrc32b : Nat := 31
def kIdCrc32cb : Nat := 32
def kIdCrc32ch : Nat := 33
def kIdCrc32cw : Nat := 34
def kIdCrc32h : Nat := 35
def kIdCrc32w : Nat := 36
def kIdDbg : Nat := 37
def kIdDmb : Nat := 38
def kIdDsb : Nat := 39
def kIdEor : Nat := 40
def kIdEors : Nat := 41
def kIdEret : Nat := 42
def kIdHlt : Nat := 43
def kIdHvc : Nat := 44
def kIdIsb : Nat := 45
def kIdLda : Nat := 46
def kIdLdab : Nat := 47
def kIdLdaex : Nat := 48
def kIdLdaexb : Nat := 49
def kIdLdaexd : Nat := 50
def kIdLdaexh : Nat := 51
def kIdLdah : Nat := 52
def kIdLdm : Nat := 53
def kIdLdmda : Nat := 54
def kIdLdmdb : Nat := 55
def kIdLdmib : Nat := 56
def kIdLdr : Nat := 57
def kIdLdrb : Nat := 58
def kIdLdrbt : Nat := 59
def kIdLdrd : Nat := 60
def kIdLdrex : Nat := 61
def kIdLdrexb : Nat := 62
def kIdLdrexd : Nat := 63
def kIdLdrexh : Nat := 64
def kIdLdrh : Nat := 65
def kIdLdrht : Nat := 66
def kIdLdrsb : Nat := 67
def kIdLdrsbt : Nat := 68
def kIdLdrsh : Nat := 69
def kIdLdrsht : Nat := 70
def kIdLdrt : Nat := 71
def kIdLsl : Nat := 72
def kIdLsls : Nat := 73
def kIdLsr : Nat := 74
def kIdLsrs : Nat := 75
def kIdMcr : Nat := 76
def kIdMcr2 : Nat := 77
def kIdMcrr : Nat := 78
def kIdMcrr2 : Nat := 79
def kIdMla : Nat := 80
def kIdMlas : Nat := 81
def kIdMls : Nat := 82
def kIdMov : Nat := 83
def kIdMovs : Nat := 84
def kIdMovt : Nat := 85
def kIdMovw : Nat := 86
def kIdMrc : Nat := 87
def kIdMrc2 : Nat := 88
def kIdMrrc : Nat := 89
def kIdMrrc2 : Nat := 90
def kIdMrs : Nat := 91
def kIdMsr : Nat := 92
def kIdMul : Nat := 93
def kIdMuls : Nat := 94
def kIdMvn : Nat := 95
def kIdMvns : Nat := 96
def kIdNop : Nat := 97
def kIdOrr : Nat := 98
def kIdOrrs : Nat := 99
def kIdPkhbt : Nat := 100
def kIdPkhtb : Nat := 101
def kIdPld : Nat := 102
def kIdPldw : Nat := 103
def kIdPli : Nat := 104
def kIdPop : Nat := 105
def kIdPush : Nat := 106
def kIdQadd : Nat := 107
def kIdQadd16 : Nat := 108
def kIdQadd8 : Nat := 109
def kIdQasx : Nat := 110
def kIdQdadd : Nat := 111
def kIdQdsub : Nat := 112
def kIdQsax : Nat := 113
def kIdQsub : Nat := 114
def kIdQsub16 : Nat := 115
def kIdQsub8 : Nat := 116
def kIdRbit : Nat := 117
def kIdRev : Nat := 118
def kIdRev16 : Nat := 119
def kIdRevsh : Nat := 120
def kIdRfe : Nat := 121
def kIdRfeda : Nat := 122
def kIdRfedb : Nat := 123
def kIdRfeib : Nat := 124
def kIdRor : Nat := 125
def kIdRors : Nat := 126
def kIdRrx : Nat := 127
def kIdRrxs : Nat := 128
def kIdRsb : Nat := 129
def kIdRsbs : Nat := 130
def kIdRsc : Nat := 131
def kIdRscs : Nat := 132
def kIdSadd16 : Nat := 133
def kIdSadd8 : Nat := 134
def kIdSasx : Nat := 135
def kIdSbc : Nat := 136
def kIdSbcs : Nat := 137
def kIdSbfx : Nat := 138
def kIdSdiv : Nat := 139
def kIdSel : Nat := 140
def kIdSetend : Nat := 141
def kIdSev : Nat := 142
def kIdSevl : Nat := 143
def kIdSha1c : Nat := 144
def kIdSha1h : Nat := 145
def kIdSha1m : Nat := 146
def kIdSha1p : Nat := 147
def kIdSha1su0 : Nat := 148
def kIdSha1su1 : Nat := 149
def kIdSha256h : Nat := 150
def kIdSha256h2 : Nat := 151
def kIdSha256su0 : Nat := 152
def kIdSha256su1 : Nat := 153
def kIdShadd16 : Nat := 154
def kIdShadd8 : Nat := 155
def kIdShasx : Nat := 156
def kIdShsax : Nat := 157
def kIdShsub16 : Nat := 158
def kIdShsub8 : Nat := 159
def kIdSmc : Nat := 160
def kIdSmlabb : Nat := 161
def kIdSmlabt : Nat := 162
def kIdSmlad : Nat := 163
def kIdSmladx : Nat := 164
def kIdSmlal : Nat := 165
def kIdSmlalbb : Nat := 166
def kIdSmlalbt : Nat := 167
def kIdSmlald : Nat := 168
def kIdSmlaldx : Nat := 169
def kIdSmlals : Nat := 170
def kIdSmlaltb : Nat := 171
def kIdSmlaltt : Nat := 172
def kIdSmlatb : Nat := 173
def kIdSmlatt : Nat := 174
def kIdSmlawb : Nat := 175
def kIdSmlawt : Nat := 176
def kIdSmlsd : Nat := 177
def kIdSmlsdx : Nat := 178
def kIdSmlsld : Nat := 179
def kIdSmlsldx : Nat := 180
def kIdSmmla : Nat := 181
def kIdSmmlar : Nat := 182
def kIdSmmls : Nat := 183
def kIdSmmlsr : Nat := 184
def kIdSmmul : Nat := 185
def kIdSmmulr : Nat := 186
def kIdSmuad : Nat := 187
def kIdSmuadx : Nat := 188
def kIdSmulbb : Nat := 189
def kIdSmulbt : Nat := 190
def kIdSmull : Nat := 191
def kIdSmulls : Nat := 192
def kIdSmultb : Nat := 193
def kIdSmultt : Nat := 194
def kIdSmulwb : Nat := 195
def kIdSmulwt : Nat := 196
def kIdSmusd : Nat := 197
def kIdSmusdx : Nat := 198
def kIdSrs : Nat := 199
def kIdSrsda : Nat := 200
def kIdSrsdb : Nat := 201
def kIdSrsib : Nat := 202
def kIdSsat : Nat := 203
def kIdSsat16 : Nat := 204
def kIdSsax : Nat := 205
def kIdSsub16 : Nat := 206
def kIdSsub8 : Nat := 207
def kIdStl : Nat := 208
def kIdStlb : Nat := 209
def kIdStlex : Nat := 210
def kIdStlexb : Nat := 211
def kIdStlexd : Nat := 212
def kIdStlexh : Nat := 213
def kIdStlh : Nat := 214
def kIdStm : Nat := 215
def kIdStmda : Nat := 216
def kIdStmdb : Nat := 217
def kIdStmib : Nat := 218
def kIdStr : Nat := 219
def kIdStrb : Nat := 220
def kIdStrbt : Nat := 221
def kIdStrd : Nat := 222
def kIdStrex : Nat := 223
def kIdStrexb : Nat := 224
def kIdStrexd : Nat := 225
def kIdStrexh : Nat := 226
def kIdStrh : Nat := 227
def kIdStrht : Nat := 228
def kIdStrt : Nat := 229
def kIdSub : Nat := 230
def kIdSubs : Nat := 231
def kIdSvc : Nat := 232
def kIdSxtab : Nat := 233
def kIdSxtab16 : Nat := 234
def kIdSxtah : Nat := 235
def kIdSxtb : Nat := 236
def kIdSxtb16 : Nat := 237
def kIdSxth : Nat := 238
def kIdTeq : Nat := 239
def kIdTst : Nat := 240
def kIdUadd16 : Nat := 241
def kIdUadd8 : Nat := 242
def kIdUasx : Nat := 243
def kIdUbfx : Nat := 244
def kIdUdf : Nat := 245
def kIdUdiv : Nat := 246
def kIdUhadd16 : Nat := 247
def kIdUhadd8 : Nat := 248
def kIdUhasx : Nat := 249
def kIdUhsax : Nat := 250
def kIdUhsub16 : Nat := 251
def kIdUhsub8 : Nat := 252
def kIdUmaal : Nat := 253
def kIdUmlal : Nat := 254
def kIdUmlals : Nat := 255
def kIdUmull : Nat := 256
def kIdUmulls : Nat := 257
def kIdUqadd16 : Nat := 258
def kIdUqadd8 : Nat := 259
def kIdUqasx : Nat := 260
def kIdUqsax : Nat := 261
def kIdUqsub16 : Nat := 262
def kIdUqsub8 : Nat := 263
def kIdUsad8 : Nat := 264
def kIdUsada8 : Nat := 265
def kIdUsat : Nat := 266
def kIdUsat16 : Nat := 267
def kIdUsax : Nat := 268
def kIdUsub16 : Nat := 269
def kIdUsub8 : Nat := 270
def kIdUxtab : Nat := 271
def kIdUxtab16 : Nat := 272
def kIdUxtah : Nat := 273
def kIdUxtb : Nat := 274
def kIdUxtb16 : Nat := 275
def kIdUxth : Nat := 276
def kIdVaba : Nat := 277
def kIdVabal : Nat := 278
def kIdVabd : Nat := 279
def kIdVabdl : Nat := 280
def kIdVabs : Nat := 281
def kIdVacge : Nat := 282
def kIdVacgt : Nat := 283
def kIdVacle : Nat := 284
def kIdVaclt : Nat := 285
def kIdVadd : Nat := 286
def kIdVaddhn : Nat := 287
def kIdVaddl : Nat := 288
def kIdVaddw : Nat := 289
def kIdVand : Nat := 290
def kIdVbic : Nat := 291
def kIdVbif : Nat := 292
def kIdVbit : Nat := 293
def kIdVbsl : Nat := 294
def kIdVcadd : Nat := 295
def kIdVceq : Nat := 296
def kIdVcge : Nat := 297
def kIdVcgt : Nat := 298
def kIdVcle : Nat := 299
def kIdVcls : Nat := 300
def kIdVclt : Nat := 301
def kIdVclz : Nat := 302
def kIdVcmla : Nat := 303
def kIdVcmp : Nat := 304
def kIdVcmpe : Nat := 305
def kIdVcnt : Nat := 306
def kIdVcvt : Nat := 307
def kIdVcvta : Nat := 308
def kIdVcvtb : Nat := 309
def kIdVcvtm : Nat := 310
def kIdVcvtn : Nat := 311
def kIdVcvtp : Nat := 312
def kIdVcvtr : Nat := 313
def kIdVcvtt : Nat := 314
def kIdVdiv : Nat := 315
def kIdVdot : Nat := 316
def kIdVdup : Nat := 317
def kIdVeor : Nat := 318
def kIdVext : Nat := 319
def kIdVfma : Nat := 320
def kIdVfmab : Nat := 321
def kIdVfmal : Nat := 322
def kIdVfmat : Nat := 323
def kIdVfms : Nat := 324
def kIdVfmsl : Nat := 325
def kIdVfnma : Nat := 326
def kIdVfnms : Nat := 327
def kIdVhadd : Nat := 328
def kIdVhsub : Nat := 329
def kIdVins : Nat := 330
def kIdVjcvt : Nat := 331
def kIdVld1 : Nat := 332
def kIdVld1r : Nat := 333
def kIdVld2 : Nat := 334
def kIdVld2r : Nat := 335
def kIdVld3 : Nat := 336
def kIdVld3r : Nat := 337
def kIdVld4 : Nat := 338
def kIdVld4r : Nat := 339
def kIdVldr : Nat := 340
def kIdVmax : Nat := 341
def kIdVmaxnm : Nat := 342
def kIdVmin : Nat := 343
def kIdVminnm : Nat := 344
def kIdVmla : Nat := 345
def kIdVmlal : Nat := 346
def kIdVmls : Nat := 347
def kIdVmlsl : Nat := 348
def kIdVmmla : Nat := 349
def kIdVmov : Nat := 350
def kIdVmovl : Nat := 351
def kIdVmovn : Nat := 352
def kIdVmovx : Nat := 353
def kIdVmul : Nat := 354
def kIdVmull : Nat := 355
def kIdVmvn : Nat := 356
def kIdVneg : Nat := 357
def kIdVnmla : Nat := 358
def kIdVnmls : Nat := 359
def kIdVnmul : Nat := 360
def kIdVorn : Nat := 361
def kIdVorr : Nat := 362
def kIdVpadal : Nat := 363
def kIdVpadd : Nat := 364
def kIdVpaddl : Nat := 365
def kIdVpmax : Nat := 366
def kIdVpmin : Nat := 367
def kIdVqabs : Nat := 368
def kIdVqadd : Nat := 369
def kIdVqdmlal : Nat := 370
def kIdVqdmlsl : Nat := 371
def kIdVqdmulh : Nat := 372
def kIdVqdmull : Nat := 373
def kIdVqmovn : Nat := 374
def kIdVqmovun : Nat := 375
def kIdVqneg : Nat := 376
def kIdVqrdmlah : Nat := 377
def kIdVqrdmlsh : Nat := 378
def kIdVqrdmulh : Nat := 379
def kIdVqrshl : Nat := 380
def kIdVqrshrn : Nat := 381
def kIdVqrshrun : Nat := 382
def kIdVqshl : Nat := 383
def kIdVqshlu : Nat := 384
def kIdVqshrn : Nat := 385
def kIdVqshrun : Nat := 386
def kIdVqsub : Nat := 387
def kIdVraddhn : Nat := 388
def kIdVrecpe : Nat := 389
def kIdVrecps : Nat := 390
def kIdVrev16 : Nat := 391
def kIdVrev32 : Nat := 392
def kIdVrev64 : Nat := 393
def kIdVrhadd : Nat := 394
def kIdVrinta : Nat := 395
def kIdVrintm : Nat := 396
def kIdVrintn : Nat := 397
def kIdVrintp : Nat := 398
def kIdVrintr : Nat := 399
def kIdVrintx : Nat := 400
def kIdVrintz : Nat := 401
def kIdVrshl : Nat := 402
def kIdVrshr : Nat := 403
def kIdVrshrn : Nat := 404
def kIdVrsqrte : Nat := 405
def kIdVrsqrts : Nat := 406
def kIdVrsra : Nat := 407
def kIdVrsubhn : Nat := 408
def kIdVsdot : Nat := 409
def kIdVseleq : Nat := 410
def kIdVselge : Nat := 411
def kIdVselgt : Nat := 412
def kIdVselvs : Nat := 413
def kIdVshl : Nat := 414
def kIdVshll : Nat := 415
def kIdVshr : Nat := 416
def kIdVshrn : Nat := 417
def kIdVsli : Nat := 418
def kIdVsmmla : Nat := 419
def kIdVsqrt : Nat := 420
def kIdVsra : Nat := 421
def kIdVsri : Nat := 422
def kIdVst1 : Nat := 423
def kIdVst2 : Nat := 424
def kIdVst3 : Nat := 425
def kIdVst4 : Nat := 426
def kIdVstr : Nat := 427
def kIdVsub : Nat := 428
def kIdVsubhn : Nat := 429
def kIdVsubl : Nat := 430
def kIdVsubw : Nat := 431
def kIdVsudot : Nat := 432
def kIdVswp : Nat := 433
def kIdVtbl : Nat := 434
def kIdVtbx : Nat := 435
def kIdVtrn : Nat := 436
def kIdVtst : Nat := 437
def kIdVudot : Nat := 438
def kIdVummla : Nat := 439
def kIdVusdot : Nat := 440
def kIdVusmmla : Nat := 441
def kIdVuzp : Nat := 442
def kIdVzip : Nat := 443
def kIdWfe : Nat := 444
def kIdWfi : Nat := 445
def kIdYield : Nat := 446
def _kIdCount : Nat := 447

/-- `a32::Inst::isDefinedId(instId)` (a32globals.h lines 488-490):
`return instId < _kIdCount;` — `InstId` is an unsigned integer type, so
the comparison is unsigned. -/
def isDefinedId (instId : Nat) : Bool := decide (instId < _kIdCount)

end Inst

end a32

/-- `class CpuInfo` (cpuinfo.h lines 836-993), member list at lines
842-871.  `Arch` and `SubArch` (from `archtraits.h`/`environment.h`,
outside the provided sources) are modelled from the spec as plain
numeric tags with `0` the unknown/zero default; the two `FixedString`
members are modelled from the spec as fixed-length byte buffers (vendor
≤ 16 bytes, brand ≤ 64 bytes).  Fields are named after the public
accessors of the corresponding `_`-prefixed members. -/
structure CpuInfo where
  arch : Nat
  subArch : Nat
  wasDetected : Bool
  reserved : Nat
  familyId : Nat
  modelId : Nat
  brandId : Nat
  stepping : Nat
  processorType : Nat
  maxLogicalProcessors : Nat
  cacheLineSize : Nat
  hwThreadCount : Nat
  vendor : Fin 16 → Nat
  brand : Fin 64 → Nat
  features : CpuFeatures.Data

/-- `CpuInfo::reset(): memset(this, 0, sizeof(*this))` (cpuinfo.h line
893): the all-zero state.  The default constructor `CpuInfo()` calls
`reset()` (line 878), so this is also the default-constructed value. -/
def CpuInfo.reset : CpuInfo where
  arch := 0
  subArch := 0
  wasDetected := false
  reserved := 0
  familyId := 0
  modelId := 0
  brandId := 0
  stepping := 0
  processorType := 0
  maxLogicalProcessors := 0
  cacheLineSize := 0
  hwThreadCount := 0
  vendor := fun _ => 0
  brand := fun _ => 0
  features := CpuFeatures.Data.reset

/-- `CpuInfo::initArch(arch, subArch)` (cpuinfo.h lines 888-891):
`_arch = arch; _subArch = subArch;` — nothing else is written. -/
def CpuInfo.initArch (c : CpuInfo) (arch subArch : Nat) : CpuInfo :=
  { c with arch := arch, subArch := subArch }

end AsmJit

namespace AsmJit

namespace CpuFeatures

theorem Data.ext' : ∀ {d e : Data}, d.bits = e.bits → d = e
  | ⟨_, _⟩, ⟨_, _⟩, rfl => rfl

theorem bitIndex_lt (f : FeatureId) : bitIndex f < kBitWordSizeInBits :=
  Nat.mod_lt _ (by decide)

theorem one_shiftLeft_lt (f : FeatureId) :
    1 <<< bitIndex f < 2 ^ kBitWordSizeInBits := by
  rw [Nat.shiftLeft_eq, Nat.one_mul]
  exact Nat.pow_lt_pow_right (by decide) (bitIndex_lt f)

/-! Projection lemmas: the `_bits` array after each mutation. -/

theorem Data.bits_add (d : Data) (f : FeatureId) :
    (d.add f).bits = Function.update d.bits (wordIndex f)
      (d.bits (wordIndex f) ||| (1 <<< bitIndex f)) := rfl

theorem Data.bits_addIf (d : Data) (c : Bool) (f : FeatureId) :
    (d.addIf c f).bits = Function.update d.bits (wordIndex f)
      (d.bits (wordIndex f) ||| ((if c then 1 else 0) <<< bitIndex f)) := rfl

theorem Data.bits_remove (d : Data) (f : FeatureId) :
    (d.remove f).bits = Function.update d.bits (wordIndex f)
      (d.bits (wordIndex f) &&&
        ((2 ^ kBitWordSizeInBits - 1) ^^^ (1 <<< bitIndex f))) := rfl

/-! Bridging lemmas between the literal word-level operations of the
source and `Nat.testBit`. -/

theorem shift_and_one (w b : Nat) : (((w >>> b) &&& 1) != 0) = w.testBit b := by
  simp [Nat.testBit, Nat.and_comm]

theorem Data.has_eq_testBit (d : Data) (f : FeatureId) :
    d.has f = (d.bits (wordIndex f)).testBit (bitIndex f) := by
  rw [Data.has, shift_and_one]

theorem testBit_one_shiftLeft (b i : Nat) :
    (1 <<< b).testBit i = decide (i = b) := by
  rw [Nat.shiftLeft_eq, Nat.one_mul, Nat.testBit_two_pow]
  by_cases h : b = i
  · simp [h]
  · simp [h]
    exact fun hib => h hib.symm

theorem wordIndex_bitIndex_inj {f g : FeatureId}
    (hw : wordIndex f = wordIndex g) (hb : bitIndex f = bitIndex g) :
    f = g := by
  rcases f with ⟨fv, hf⟩
  rcases g with ⟨gv, hg⟩
  simp only [wordIndex, bitIndex, Fin.mk.injEq, kBitWordSizeInBits] at hw hb ⊢
  omega

/-- The workhorse for `add`: adding `f` sets bit `f` and leaves every
other bit alone. -/
theorem Data.has_add (d : Data) (f g : FeatureId) :
    (d.add f).has g = (d.has g || decide (f = g)) := by
  rw [Data.has_eq_testBit, Data.has_eq_testBit, Data.bits_add]
  by_cases hw : wordIndex g = wordIndex f
  · rw [Function.update_apply, if_pos hw, hw, Nat.testBit_or, testBit_one_shiftLeft]
    by_cases hb : bitIndex g = bitIndex f
    · have : f = g := wordIndex_bitIndex_inj hw.symm hb.symm
      simp [this, hb]
    · have : ¬ f = g := fun h => hb (by rw [h])
      simp [this, hb]
  · have hfg : ¬ f = g := fun h => hw (by rw [h])
    rw [Function.update_apply, if_neg hw]
    simp [hfg]

/-- The workhorse for `addIf`. -/
theorem Data.has_addIf (d : Data) (c : Bool) (f g : FeatureId) :
    (d.addIf c f).has g = (d.has g || (c && decide (f = g))) := by
  cases c
  · rw [Data.has_eq_testBit, Data.has_eq_testBit, Data.bits_addIf]
    simp only [if_neg Bool.false_ne_true, Nat.zero_shiftLeft, Nat.or_zero,
      Function.update_eq_self, Bool.false_and, Bool.or_false]
  · have : d.addIf true f = d.add f := rfl
    rw [this, Data.has_add]
    simp

/-- The workhorse for `remove`: removing `f` clears bit `f` and leaves
every other bit alone. -/
theorem Data.has_remove (d : Data) (f g : FeatureId) :
    (d.remove f).has g = (d.has g && !decide (f = g)) := by
  rw [Data.has_eq_testBit, Data.has_eq_testBit, Data.bits_remove]
  by_cases hw : wordIndex g = wordIndex f
  · rw [Function.update_apply, if_pos hw, hw, Nat.testBit_and, Nat.testBit_xor,
      testBit_one_shiftLeft, Nat.testBit_two_pow_sub_one]
    have hlt : bitIndex g < kBitWordSizeInBits := bitIndex_lt g
    have hltf : bitIndex f < kBitWordSizeInBits := bitIndex_lt f
    by_cases hb : bitIndex g = bitIndex f
    · have : f = g := wordIndex_bitIndex_inj hw.symm hb.symm
      simp [this, hb, hlt, hltf]
    · have : ¬ f = g := fun h => hb (by rw [h])
      simp [this, hb, hlt]
  · have hfg : ¬ f = g := fun h => hw (by rw [h])
    rw [Function.update_apply, if_neg hw]
    simp [hfg]

end CpuFeatures

end AsmJit

namespace AsmJit

namespace CpuFeatures

theorem nat_or_eq_zero {a b : Nat} : a ||| b = 0 ↔ a = 0 ∧ b = 0 := by
  constructor
  · intro h
    refine ⟨Nat.eq_of_testBit_eq fun i => ?_, Nat.eq_of_testBit_eq fun i => ?_⟩
    · have hx : (a ||| b).testBit i = Nat.testBit 0 i := by rw [h]
      rw [Nat.testBit_or] at hx
      simp only [Nat.zero_testBit, Bool.or_eq_false_iff] at hx
      simp [hx.1]
    · have hx : (a ||| b).testBit i = Nat.testBit 0 i := by rw [h]
      rw [Nat.testBit_or] at hx
      simp only [Nat.zero_testBit, Bool.or_eq_false_iff] at hx
      simp [hx.2]
  · rintro ⟨rfl, rfl⟩
    rfl

theorem foldl_and_eq {α : Type} (p : α → Bool) (l : List α) (b : Bool) :
    l.foldl (fun r x => r && p x) b = (b && l.all p) := by
  induction l generalizing b with
  | nil => simp
  | cons x xs ih => simp [List.foldl_cons, ih, List.all_cons, Bool.and_assoc]

theorem foldl_or_eq_zero {α : Type} (g : α → Nat) (l : List α) (n : Nat) :
    l.foldl (fun acc x => acc ||| g x) n = 0 ↔ n = 0 ∧ ∀ x ∈ l, g x = 0 := by
  induction l generalizing n with
  | nil => simp
  | cons x xs ih =>
    rw [List.foldl_cons, ih, nat_or_eq_zero]
    simp [and_assoc]

/-- `hasAll` decides the word-wise subset test of the source loop. -/
theorem Data.hasAll_iff (d o : Data) :
    d.hasAll o = true ↔ ∀ w, (d.bits w &&& o.bits w) = o.bits w := by
  rw [Data.hasAll, foldl_and_eq]
  simp [List.all_eq_true, List.mem_finRange]

/-- `empty` decides that every storage word is zero. -/
theorem Data.empty_iff (d : Data) : d.empty = true ↔ ∀ w, d.bits w = 0 := by
  rw [Data.empty]
  rw [beq_iff_eq, foldl_or_eq_zero]
  simp [List.mem_finRange]

/-- `eq` decides structural equality of feature sets. -/
theorem Data.eq_iff (d o : Data) : d.eq o = true ↔ d = o := by
  rw [Data.eq]
  simp only [List.all_eq_true, List.mem_finRange, beq_iff_eq, forall_const]
  constructor
  · intro h
    exact Data.ext' (funext fun w => h w)
  · intro h w
    rw [h]

/-- Adding an already-set feature id leaves the set unchanged. -/
theorem Data.add_of_has {d : Data} {f : FeatureId} (h : d.has f = true) :
    d.add f = d := by
  apply Data.ext'
  rw [Data.bits_add]
  have hw : d.bits (wordIndex f) ||| (1 <<< bitIndex f) = d.bits (wordIndex f) := by
    apply Nat.eq_of_testBit_eq
    intro i
    rw [Nat.testBit_or, testBit_one_shiftLeft]
    by_cases hi : i = bitIndex f
    · subst hi
      rw [Data.has_eq_testBit] at h
      simp [h]
    · simp [hi]
  rw [hw, Function.update_eq_self]

/-- A word of a feature set has no bits at or above the word width. -/
theorem Data.testBit_high (d : Data) (w : Fin kNumBitWords) {i : Nat}
    (hi : kBitWordSizeInBits ≤ i) : (d.bits w).testBit i = false := by
  apply Nat.testBit_lt_two_pow
  exact Nat.lt_of_lt_of_le (d.bits_lt w) (Nat.pow_le_pow_right (by decide) hi)

/-- Removing an already-clear feature id leaves the set unchanged. -/
theorem Data.remove_of_not_has {d : Data} {f : FeatureId} (h : d.has f = false) :
    d.remove f = d := by
  apply Data.ext'
  rw [Data.bits_remove]
  have hw : d.bits (wordIndex f) &&&
      ((2 ^ kBitWordSizeInBits - 1) ^^^ (1 <<< bitIndex f)) = d.bits (wordIndex f) := by
    apply Nat.eq_of_testBit_eq
    intro i
    rw [Nat.testBit_and, Nat.testBit_xor, Nat.testBit_two_pow_sub_one,
      testBit_one_shiftLeft]
    by_cases hi : i = bitIndex f
    · subst hi
      rw [Data.has_eq_testBit] at h
      simp [h, bitIndex_lt f]
    · by_cases hlt : i < kBitWordSizeInBits
      · simp [hi, hlt]
      · have hhigh := Data.testBit_high d (wordIndex f) (Nat.le_of_not_lt hlt)
        simp [hi, hlt, hhigh]
  rw [hw, Function.update_eq_self]

/-- `addIf` with a false condition is the identity, one id at a time. -/
theorem Data.addIf_false (d : Data) (f : FeatureId) : d.addIf false f = d := by
  apply Data.ext'
  rw [Data.bits_addIf]
  simp [Nat.zero_shiftLeft, Nat.or_zero, Function.update_eq_self]

/-- `addIf` with a true condition is `add`, one id at a time. -/
theorem Data.addIf_true (d : Data) (f : FeatureId) : d.addIf true f = d.add f := rfl

/-- Bit content of the variadic `add`. -/
theorem Data.has_addList (d : Data) (ids : List FeatureId) (g : FeatureId) :
    (d.addList ids).has g = (d.has g || ids.any fun f => decide (f = g)) := by
  induction ids generalizing d with
  | nil => simp [Data.addList]
  | cons x xs ih =>
    rw [Data.addList, List.foldl_cons,
      show xs.foldl Data.add (d.add x) = (d.add x).addList xs from rfl,
      ih, Data.has_add]
    simp [List.any_cons, Bool.or_assoc]

/-- The variadic `addIf` with a false condition is the identity. -/
theorem Data.addIfList_false (d : Data) (ids : List FeatureId) :
    d.addIfList false ids = d := by
  induction ids generalizing d with
  | nil => rfl
  | cons x xs ih =>
    rw [Data.addIfList, List.foldl_cons, Data.addIf_false]
    exact ih d

/-- The variadic `addIf` with a true condition is the variadic `add`. -/
theorem Data.addIfList_true (d : Data) (ids : List FeatureId) :
    d.addIfList true ids = d.addList ids := by
  induction ids generalizing d with
  | nil => rfl
  | cons x xs ih =>
    rw [Data.addIfList, List.foldl_cons, Data.addIf_true, Data.addList,
      List.foldl_cons]
    exact ih (d.add x)

/-- The variadic `hasAny` is the logical OR of the individual tests. -/
theorem Data.hasAnyList_eq_any (d : Data) (f : FeatureId) (rest : List FeatureId) :
    d.hasAnyList f rest = (f :: rest).any d.has := by
  induction rest generalizing f with
  | nil => simp [Data.hasAnyList, List.any_cons]
  | cons g gs ih =>
    rw [Data.hasAnyList, ih]
    simp [List.any_cons, Bool.or_assoc]

end CpuFeatures

end AsmJit

namespace AsmJit

open CpuFeatures

/-- C1: for every feature id `f < 256`, a freshly constructed
(zero-initialized) feature set has `has f = false`; after `add f`,
`has f = true`; after a subsequent `remove f`, `has f = false`; and both
`add` and `remove` are idempotent — adding an already-set id or removing
an already-clear id leaves the set unchanged. -/
theorem C1_fresh_add_remove_idempotent (f : FeatureId) :
    Data.reset.has f = false ∧
    (∀ d : Data, (d.add f).has f = true) ∧
    (∀ d : Data, ((d.add f).remove f).has f = false) ∧
    (∀ d : Data, d.has f = true → d.add f = d) ∧
    (∀ d : Data, d.has f = false → d.remove f = d) := by
  refine ⟨?_, ?_, ?_, ?_, ?_⟩
  · rw [Data.has_eq_testBit]
    simp [Data.reset, Nat.zero_testBit]
  · intro d
    rw [Data.has_add]
    simp
  · intro d
    rw [Data.has_remove]
    simp
  · intro d h
    exact Data.add_of_has h
  · intro d h
    exact Data.remove_of_not_has h

/-- Witness for C1 at feature id 7 on concrete states: adding an
already-set id and removing an already-clear id are both no-ops. -/
theorem C1_witness :
    (Data.reset.add ⟨7, by decide⟩).add ⟨7, by decide⟩ = Data.reset.add ⟨7, by decide⟩ ∧
    Data.reset.remove ⟨7, by decide⟩ = Data.reset :=
  ⟨(C1_fresh_add_remove_idempotent ⟨7, by decide⟩).2.2.2.1 _ (by decide),
   (C1_fresh_add_remove_idempotent ⟨7, by decide⟩).2.2.2.2 _ (by decide)⟩

/-- C2: `hasAll other` is true iff for every storage word index `w`,
`(self[w] &&& other[w]) = other[w]` (a subset test, not equality); it is
true whenever `other` is the empty set, and `hasAll self self` is true
for every `self`. -/
theorem C2_hasAll_subset_test (d o : Data) :
    (d.hasAll o = true ↔ ∀ w : Fin kNumBitWords, (d.bits w &&& o.bits w) = o.bits w) ∧
    (o.empty = true → d.hasAll o = true) ∧
    d.hasAll d = true := by
  refine ⟨Data.hasAll_iff d o, ?_, ?_⟩
  · intro h
    rw [Data.hasAll_iff]
    intro w
    rw [(Data.empty_iff o).mp h w, Nat.and_zero]
  · rw [Data.hasAll_iff]
    intro w
    exact Nat.and_self _

/-- Witness for C2: a one-bit set contains the empty set. -/
theorem C2_witness :
    (Data.reset.add ⟨3, by decide⟩).hasAll Data.reset = true :=
  (C2_hasAll_subset_test (Data.reset.add ⟨3, by decide⟩) Data.reset).2.1 (by decide)

/-- C3: in the a32 namespace, `isDefinedId i` is true iff
`i < _kIdCount`; in particular `isDefinedId kIdNone` (the sentinel, id 0)
is true and `isDefinedId _kIdCount` is false. -/
theorem C3_isDefinedId_bound (i : Nat) :
    (a32.Inst.isDefinedId i = true ↔ i < a32.Inst._kIdCount) ∧
    a32.Inst.isDefinedId a32.Inst.kIdNone = true ∧
    a32.Inst.isDefinedId a32.Inst._kIdCount = false := by
  refine ⟨?_, by decide, by decide⟩
  simp [a32.Inst.isDefinedId]

/-- C4: `addIf` with a false condition leaves the set bit-for-bit
identical, no matter how many ids are listed; with a true condition it
sets all the listed bits (it coincides with `add` over the same list). -/
theorem C4_addIf_false_frame (d : Data) (ids : List FeatureId) :
    d.addIfList false ids = d ∧
    d.addIfList true ids = d.addList ids ∧
    (∀ f ∈ ids, (d.addIfList true ids).has f = true) := by
  refine ⟨Data.addIfList_false d ids, Data.addIfList_true d ids, ?_⟩
  intro f hf
  rw [Data.addIfList_true, Data.has_addList]
  have : ids.any (fun g => decide (g = f)) = true :=
    List.any_eq_true.mpr ⟨f, hf, by simp⟩
  rw [this, Bool.or_true]

/-- Witness for C4 on a concrete two-id list. -/
theorem C4_witness :
    (Data.reset.addIfList true [⟨5, by decide⟩, ⟨9, by decide⟩]).has ⟨9, by decide⟩ = true ∧
    Data.reset.addIfList false [⟨5, by decide⟩, ⟨9, by decide⟩] = Data.reset :=
  ⟨(C4_addIf_false_frame Data.reset [⟨5, by decide⟩, ⟨9, by decide⟩]).2.2 _ (by decide),
   (C4_addIf_false_frame Data.reset [⟨5, by decide⟩, ⟨9, by decide⟩]).1⟩

/-- C5: `hasAny a b` equals `has a || has b`, and in general the
variadic `hasAny` over a non-empty id list equals the logical OR of the
individual `has` tests. -/
theorem C5_hasAny_or (d : Data) (a b f : FeatureId) (rest : List FeatureId) :
    d.hasAnyList a [b] = (d.has a || d.has b) ∧
    d.hasAnyList f rest = (f :: rest).any d.has :=
  ⟨rfl, Data.hasAnyList_eq_any d f rest⟩

/-- C6: the default-constructed `CpuInfo` is the fully defined all-zero
state: not detected, zero hardware threads, empty vendor and brand
strings, an empty feature set, and every other scalar field zero. -/
theorem C6_default_cpuInfo_zero :
    CpuInfo.reset.wasDetected = false ∧
    CpuInfo.reset.hwThreadCount = 0 ∧
    (∀ i, CpuInfo.reset.vendor i = 0) ∧
    CpuInfo.reset.features.empty = true ∧
    CpuInfo.reset.arch = 0 ∧
    CpuInfo.reset.subArch = 0 ∧
    CpuInfo.reset.reserved = 0 ∧
    CpuInfo.reset.familyId = 0 ∧
    CpuInfo.reset.modelId = 0 ∧
    CpuInfo.reset.brandId = 0 ∧
    CpuInfo.reset.stepping = 0 ∧
    CpuInfo.reset.processorType = 0 ∧
    CpuInfo.reset.maxLogicalProcessors = 0 ∧
    CpuInfo.reset.cacheLineSize = 0 ∧
    (∀ i, CpuInfo.reset.brand i = 0) :=
  ⟨rfl, rfl, fun _ => rfl, by decide, rfl, rfl, rfl, rfl, rfl, rfl, rfl, rfl,
   rfl, rfl, fun _ => rfl⟩

/-- C7: `initArch arch subArch` sets only the architecture tag and the
sub-architecture tag; every other field of the identity — detected flag,
family/model/brand/stepping/processor-type, logical processor count,
cache line size, hardware thread count, vendor string, brand string and
the embedded feature set — is unchanged. -/
theorem C7_initArch_frame (c : CpuInfo) (a s : Nat) :
    (c.initArch a s).arch = a ∧
    (c.initArch a s).subArch = s ∧
    (c.initArch a s).wasDetected = c.wasDetected ∧
    (c.initArch a s).reserved = c.reserved ∧
    (c.initArch a s).familyId = c.familyId ∧
    (c.initArch a s).modelId = c.modelId ∧
    (c.initArch a s).brandId = c.brandId ∧
    (c.initArch a s).stepping = c.stepping ∧
    (c.initArch a s).processorType = c.processorType ∧
    (c.initArch a s).maxLogicalProcessors = c.maxLogicalProcessors ∧
    (c.initArch a s).cacheLineSize = c.cacheLineSize ∧
    (c.initArch a s).hwThreadCount = c.hwThreadCount ∧
    (c.initArch a s).vendor = c.vendor ∧
    (c.initArch a s).brand = c.brand ∧
    (c.initArch a s).features = c.features :=
  ⟨rfl, rfl, rfl, rfl, rfl, rfl, rfl, rfl, rfl, rfl, rfl, rfl, rfl, rfl, rfl⟩

/-- C8 as stated is false on the code: nothing prevents `add 0`, and
after `add 0` bit 0 is set.  Concrete counterexample: on the
zero-initialized set, one public mutation `add 0` makes `has 0` true. -/
theorem C8_counterexample :
    (Data.reset.add ⟨0, by decide⟩).has ⟨0, by decide⟩ = true := by decide

/-- C8, amended: bit 0 stays clear in every feature set reachable from
the zero-initialized state via the public mutations `add`, `addIf` and
`remove` whose feature-id arguments are all nonzero — the code itself
does not stop a caller from passing id 0, so the reservation of id 0
holds only for mutation sequences that never name it. -/
theorem C8_none_bit_stays_clear (ops : List MutOp)
    (h : ∀ op ∈ ops, (MutOp.fid op).val ≠ 0) :
    (Data.reset.applyOps ops).has ⟨0, by decide⟩ = false := by
  suffices H : ∀ d : Data, d.has ⟨0, by decide⟩ = false →
      (d.applyOps ops).has ⟨0, by decide⟩ = false by
    refine H Data.reset ?_
    rw [Data.has_eq_testBit]
    simp [Data.reset, Nat.zero_testBit]
  induction ops with
  | nil => exact fun d hd => hd
  | cons op rest ih =>
    intro d hd
    rw [Data.applyOps, List.foldl_cons,
      show rest.foldl MutOp.apply (MutOp.apply d op) = (MutOp.apply d op).applyOps rest
        from rfl]
    have hop : (MutOp.fid op).val ≠ 0 := h op (List.mem_cons_self op rest)
    have hne : ¬ (MutOp.fid op = (⟨0, by decide⟩ : FeatureId)) := by
      intro he
      exact hop (by rw [he])
    have hstep : (MutOp.apply d op).has ⟨0, by decide⟩ = false := by
      cases op with
      | add f =>
        rw [MutOp.apply, Data.has_add, hd, Bool.false_or]
        exact decide_eq_false (by simpa [MutOp.fid] using hne)
      | addIf c f =>
        rw [MutOp.apply, Data.has_addIf, hd, Bool.false_or]
        have hdec : decide (f = (⟨0, by decide⟩ : FeatureId)) = false :=
          decide_eq_false (by simpa [MutOp.fid] using hne)
        rw [hdec, Bool.and_false]
      | remove f =>
        rw [MutOp.apply, Data.has_remove, hd, Bool.false_and]
    exact ih (fun o ho => h o (List.mem_cons_of_mem op ho)) (MutOp.apply d op) hstep

/-- Witness for the amended C8 on a concrete mutation sequence that
never names id 0. -/
theorem C8_witness :
    (Data.reset.applyOps
      [MutOp.add ⟨3, by decide⟩, MutOp.addIf true ⟨200, by decide⟩,
       MutOp.remove ⟨3, by decide⟩]).has ⟨0, by decide⟩ = false :=
  C8_none_bit_stays_clear
    [MutOp.add ⟨3, by decide⟩, MutOp.addIf true ⟨200, by decide⟩,
     MutOp.remove ⟨3, by decide⟩] (by decide)

/-- C10: bit independence — for distinct feature ids `f ≠ g`, neither
`add f` nor `remove f` nor `addIf c f` changes `has g`; each mutation
touches exactly the one bit it names. -/
theorem C10_bit_independence (d : Data) (f g : FeatureId) (hfg : f ≠ g) :
    (d.add f).has g = d.has g ∧
    (d.remove f).has g = d.has g ∧
    (∀ c, (d.addIf c f).has g = d.has g) := by
  refine ⟨?_, ?_, ?_⟩
  · rw [Data.has_add]
    simp [hfg]
  · rw [Data.has_remove]
    simp [hfg]
  · intro c
    rw [Data.has_addIf]
    simp [hfg]

/-- Witness for C10 at distinct concrete ids 1 and 2. -/
theorem C10_witness :
    (Data.reset.add ⟨1, by decide⟩).has ⟨2, by decide⟩ = Data.reset.has ⟨2, by decide⟩ :=
  (C10_bit_independence Data.reset ⟨1, by decide⟩ ⟨2, by decide⟩ (by decide)).1

end AsmJit
